import Mathlib

/-!
Verification development for the SiteScan frontend repository.

The repository ships a single React source file (src/src/App.jsx). Its
in-browser logic (the currency formatter, the criteria-save payload) is
embedded directly from that source. The match-scoring engine, query engine
and saved-set manager live behind the HTTP API and are not present in the
repository; those components are modelled from the specification
(spec.md sections 4.1, 4.2 and 4.4) and marked as such below.
-/

namespace SiteScan

/-- Embedding of the helper written as fmt-dollar in src/src/App.jsx lines
26-31.  The input is a nullable non-negative numeric project value, modelled
as `Option Nat`.  The JavaScript guard `if (!v) return "—"` fires on `null`,
`undefined` and the number `0`.  `toFixed` rounding is modelled as exact
half-up rounding on the scaled integer (binary floating point can differ on
exact ties, which the claims do not touch), and `toLocaleString` on the last
branch only ever sees values below 1000, where it prints the plain digits. -/
def toFixed1M (v : Nat) : String :=
  toString ((v + 50000) / 100000 / 10) ++ "." ++ toString ((v + 50000) / 100000 % 10)

/-- Thousands branch of the formatter: `(v / 1e3).toFixed(0)`. -/
def toFixed0K (v : Nat) : String :=
  toString ((v + 500) / 1000)

/-- The formatter itself, following the branch structure of the source. -/
def fmtDollar : Option Nat → String
  | none => "—"
  | some v =>
    if v = 0 then "—"
    else if 1000000 ≤ v then "$" ++ toFixed1M v ++ "M"
    else if 1000 ≤ v then "$" ++ toFixed0K v ++ "K"
    else "$" ++ toString v

/-- Request body sent by ProfileTab.save (src/src/App.jsx lines 415-430). -/
structure CriteriaPayload where
  criteria_min_value : Option Nat
  criteria_categories : List String
  criteria_statuses : List String
  criteria_sources : List String
deriving DecidableEq

/-- Embedding of the body construction in ProfileTab.save: the client sends
`criteria_min_value: minValue || null` (a JavaScript number is falsy exactly
when it is 0, for the non-negative values the chips offer), and the three
arrays unchanged. -/
def profileSaveBody (minValue : Nat) (categories statuses sources : List String) :
    CriteriaPayload :=
  { criteria_min_value := if minValue = 0 then none else some minValue,
    criteria_categories := categories,
    criteria_statuses := statuses,
    criteria_sources := sources }

/-- Modelled from the spec: the Project record of spec.md section 3.  The
scoring and query engines consuming it are not in the repository (they sit
behind the HTTP API); fields are the ones those engines read. -/
structure Project where
  id : Nat
  title : String
  location : String
  agency : Option String
  description : String
  category : String
  status : String
  source : String
  value : Option Nat
  postedDate : Nat
  deadline : Option Nat
deriving DecidableEq

/-- Modelled from the spec: the per-user Criteria record of spec.md
section 3 (minimum value nullable, three accept-sets, empty meaning no
restriction). -/
structure Criteria where
  minValue : Option Nat
  categories : List String
  statuses : List String
  sources : List String
deriving DecidableEq

/-- Modelled from the spec: the value dimension predicate of the Scoring
Function (spec.md section 4.1): satisfied if minValue is unset, or the
project value is known and at least minValue; unsatisfied when minValue is
set and the value is unknown. -/
def valueOk (p : Project) (c : Criteria) : Bool :=
  match c.minValue with
  | none => true
  | some m =>
    match p.value with
    | none => false
    | some v => decide (m ≤ v)

/-- Modelled from the spec: a set dimension predicate of the Scoring
Function: satisfied if the accept-set is empty or contains the project
attribute. -/
def setOk (x : String) (s : List String) : Bool :=
  s.isEmpty || s.contains x

/-- Modelled from the spec: the Scoring Function of spec.md section 4.1,
absent from the repository.  Four independent dimensions, 25 points each,
binary contribution. -/
def score (p : Project) (c : Criteria) : Nat :=
  (if valueOk p c then 25 else 0)
    + (if setOk p.category c.categories then 25 else 0)
    + (if setOk p.status c.statuses then 25 else 0)
    + (if setOk p.source c.sources then 25 else 0)

/-- Modelled from the spec: the view-level filter map of the Query Engine
(spec.md section 4.2). -/
structure Filters where
  search : Option String
  category : Option String
  source : Option String
  minMatch : Nat
  sortBy : String
  limit : Nat
deriving DecidableEq

/-- Modelled from the spec: typed query failures (spec.md section 7). -/
inductive QueryError where
  | invalidFilter : String → QueryError
deriving DecidableEq

/-- Modelled from the spec: the query result shape, items paired with their
computed score. -/
structure QueryResult where
  items : List (Project × Nat)
  total : Nat
deriving DecidableEq

/-- Substring test on character lists, used for the free-text search. -/
def hasSub (needle : List Char) : List Char → Bool
  | [] => needle.isEmpty
  | ch :: rest => needle.isPrefixOf (ch :: rest) || hasSub needle rest

/-- Case-insensitive substring match between strings. -/
def strHas (needle hay : String) : Bool :=
  hasSub needle.toLower.toList hay.toLower.toList

/-- Modelled from the spec: search matches title, location, agency or
description, case-insensitively, with OR across the fields. -/
def matchesSearch (q : String) (p : Project) : Bool :=
  strHas q p.title || strHas q p.location
    || (match p.agency with
        | none => false
        | some a => strHas q a)
    || strHas q p.description

/-- Modelled from the spec: the search/category/source view filters of the
Query Engine, exact match for category and source, absent meaning no
restriction. -/
def viewKeep (f : Filters) (p : Project) : Bool :=
  (match f.search with
   | none => true
   | some q => matchesSearch q p)
    && (match f.category with
        | none => true
        | some cat => p.category == cat)
    && (match f.source with
        | none => true
        | some s => p.source == s)

/-- Step 1 of the query pipeline: score every project. -/
def scoreAll (c : Criteria) (ps : List Project) : List (Project × Nat) :=
  ps.map (fun p => (p, score p c))

/-- Step 2 of the query pipeline: the minMatch floor excludes low scorers. -/
def applyFloor (m : Nat) (l : List (Project × Nat)) : List (Project × Nat) :=
  l.filter (fun x => decide (m ≤ x.2))

/-- Step 3 of the query pipeline: the view-level filters. -/
def applyView (f : Filters) (l : List (Project × Nat)) : List (Project × Nat) :=
  l.filter (fun x => viewKeep f x.1)

/-- Sort key extraction for the three recognized keys. -/
def sortKeyOf (key : String) (x : Project × Nat) : Nat :=
  if key == "score" then x.2
  else if key == "value" then x.1.value.getD 0
  else x.1.postedDate

/-- Modelled from the spec: descending order on the chosen key, ties broken
by identifier ascending for determinism. -/
def sortLe (key : String) (a b : Project × Nat) : Bool :=
  if sortKeyOf key a = sortKeyOf key b then decide (a.1.id ≤ b.1.id)
  else decide (sortKeyOf key b < sortKeyOf key a)

/-- Insertion of one element into a sorted list. -/
def insertSorted {α : Type} (le : α → α → Bool) (x : α) : List α → List α
  | [] => [x]
  | y :: ys => if le x y then x :: y :: ys else y :: insertSorted le x ys

/-- Deterministic insertion sort used by the query pipeline. -/
def sortList {α : Type} (le : α → α → Bool) (l : List α) : List α :=
  l.foldr (insertSorted le) []

/-- Modelled from the spec: the recognized sort keys, score descending,
value descending, postedDate descending. -/
def recognizedSortKey (s : String) : Bool :=
  s == "score" || s == "value" || s == "posted_date"

/-- Modelled from the spec: the Query Engine of spec.md section 4.2, absent
from the repository.  An unknown sortBy fails with InvalidFilter; otherwise
the pipeline scores, floors, filters, sorts, truncates to the limit, and
reports the pre-truncation count as total. -/
def query (ps : List Project) (c : Criteria) (f : Filters) :
    Except QueryError QueryResult :=
  if recognizedSortKey f.sortBy then
    let filtered := applyView f (applyFloor f.minMatch (scoreAll c ps))
    Except.ok
      { items := (sortList (sortLe f.sortBy) filtered).take f.limit,
        total := filtered.length }
  else
    Except.error (QueryError.invalidFilter f.sortBy)

/-- Modelled from the spec: a SavedEntry relating a user to a project with a
timestamp (spec.md section 3). -/
structure SavedEntry where
  id : Nat
  userId : Nat
  projectId : Nat
  savedAt : Nat
deriving DecidableEq

/-- Modelled from the spec: the Saved-Set Manager state, absent from the
repository. -/
structure SavedStore where
  entries : List SavedEntry
  nextId : Nat
deriving DecidableEq

/-- Predicate picking the entries of one (user, project) pair. -/
def pairMatch (u pid : Nat) (e : SavedEntry) : Bool :=
  e.userId == u && e.projectId == pid

/-- Modelled from the spec: the idempotent save of spec.md section 4.4 —
saving an already-saved project returns the existing entry rather than
erroring or duplicating; otherwise a fresh entry is appended. -/
def save (st : SavedStore) (u pid now : Nat) : SavedEntry × SavedStore :=
  match st.entries.find? (pairMatch u pid) with
  | some e => (e, st)
  | none =>
    (⟨st.nextId, u, pid, now⟩,
     { entries := st.entries ++ [⟨st.nextId, u, pid, now⟩], nextId := st.nextId + 1 })

/-! Concrete example values used by witnesses and counterexamples. -/

/-- A Criteria with all four dimensions empty/unset. -/
def cEmptyEx : Criteria :=
  { minValue := none, categories := [], statuses := [], sources := [] }

/-- A concrete project. -/
def pEx : Project :=
  { id := 1, title := "City Hall Renovation", location := "Charleston",
    agency := some ("GSA"), description := "masonry repair",
    category := "commercial", status := "Open", source := "sam-gov",
    value := some 600000, postedDate := 20250101, deadline := none }

/-- A second concrete project, differing from the first in every attribute. -/
def pEx2 : Project :=
  { id := 2, title := "Dock Repair", location := "North Charleston",
    agency := none, description := "pile driving",
    category := "structural", status := "Closed", source := "scbo",
    value := none, postedDate := 20240315, deadline := some 20260101 }

/-! Helper lemmas. -/

theorem ite25_le (b : Bool) : (if b then 25 else 0) ≤ 25 := by
  cases b <;> simp

theorem ite25_mono {b1 b2 : Bool} (h : b1 = true → b2 = true) :
    (if b1 then 25 else 0) ≤ (if b2 then 25 else 0) := by
  cases b1 <;> cases b2 <;> simp_all

theorem setOk_relax {x : String} {s2 s : List String} (h : s2 = s ∨ s2 = [])
    (hs : setOk x s = true) : setOk x s2 = true := by
  rcases h with rfl | rfl
  · exact hs
  · simp [setOk]

theorem mem_insertSorted {α : Type} (le : α → α → Bool) (x a : α) (l : List α) :
    a ∈ insertSorted le x l ↔ a = x ∨ a ∈ l := by
  induction l with
  | nil => simp [insertSorted]
  | cons y ys ih =>
    simp only [insertSorted]
    split
    · simp [List.mem_cons]
    · simp only [List.mem_cons, ih]
      tauto

theorem length_insertSorted {α : Type} (le : α → α → Bool) (x : α) (l : List α) :
    (insertSorted le x l).length = l.length + 1 := by
  induction l with
  | nil => rfl
  | cons y ys ih =>
    simp only [insertSorted]
    split
    · simp
    · simp [ih]

theorem mem_sortList {α : Type} (le : α → α → Bool) (a : α) (l : List α) :
    a ∈ sortList le l ↔ a ∈ l := by
  induction l with
  | nil => simp [sortList]
  | cons y ys ih =>
    simp only [sortList, List.foldr_cons] at ih ⊢
    rw [mem_insertSorted, ih, List.mem_cons]

theorem length_sortList {α : Type} (le : α → α → Bool) (l : List α) :
    (sortList le l).length = l.length := by
  induction l with
  | nil => rfl
  | cons y ys ih =>
    simp only [sortList, List.foldr_cons] at ih ⊢
    rw [length_insertSorted, ih, List.length_cons]

/-! Claims. -/

/-- Claim C1: for every Project and every Criteria whose four dimensions are
all empty/unset, the score is 100. -/
theorem score_all_empty_eq_100 (p : Project) (c : Criteria)
    (h1 : c.minValue = none) (h2 : c.categories = [])
    (h3 : c.statuses = []) (h4 : c.sources = []) :
    score p c = 100 := by
  simp [score, valueOk, setOk, h1, h2, h3, h4]

/-- Claim C1 witness: a concrete project scores 100 against the all-empty
Criteria. -/
theorem score_all_empty_eq_100_witness :
    cEmptyEx.minValue = none ∧ cEmptyEx.categories = [] ∧
    cEmptyEx.statuses = [] ∧ cEmptyEx.sources = [] ∧ score pEx cEmptyEx = 100 :=
  ⟨rfl, rfl, rfl, rfl, score_all_empty_eq_100 pEx cEmptyEx rfl rfl rfl rfl⟩

/-- Claim C2 counterexample: under the all-empty Criteria a concrete project
scores exactly 100, so the shared default is 100 — refuting the part of the
claim asserting the default is neither 0 nor 100. -/
theorem score_empty_default_cex :
    ¬ (score pEx cEmptyEx ≠ 0 ∧ score pEx cEmptyEx ≠ 100) := by
  decide

/-- Claim C2 (amended): with all four dimensions empty/unset every Project
scores the same defined default, and that default is 100. -/
theorem score_empty_uniform_100 (p q : Project) (c : Criteria)
    (h1 : c.minValue = none) (h2 : c.categories = [])
    (h3 : c.statuses = []) (h4 : c.sources = []) :
    score p c = score q c ∧ score p c = 100 := by
  constructor
  · simp [score, valueOk, setOk, h1, h2, h3, h4]
  · simp [score, valueOk, setOk, h1, h2, h3, h4]

/-- Claim C2 witness: two concrete projects both score the 100 default under
the all-empty Criteria. -/
theorem score_empty_uniform_100_witness :
    score pEx cEmptyEx = score pEx2 cEmptyEx ∧ score pEx cEmptyEx = 100 :=
  score_empty_uniform_100 pEx pEx2 cEmptyEx rfl rfl rfl rfl

/-- Criteria accepting two categories. -/
def cPairEx : Criteria :=
  { minValue := none, categories := ["commercial", "residential"],
    statuses := [], sources := [] }

/-- The same Criteria after removing the element "commercial". -/
def cRemovedEx : Criteria :=
  { minValue := none, categories := ["residential"], statuses := [], sources := [] }

/-- Claim C3 counterexample: removing one element from a two-element
category set strictly decreases the score of a project in the removed
category, refuting removal monotonicity. -/
theorem score_remove_element_cex :
    cPairEx.categories = "commercial" :: cRemovedEx.categories ∧
    score pEx cRemovedEx < score pEx cPairEx :=
  ⟨rfl, by decide⟩

/-- Claim C3 (amended): relaxing Criteria by lowering or unsetting minValue,
or by clearing any of the category/status/source sets to empty (removing the
only restrictions of that dimension), never decreases the score; removing a
single element from a larger set can decrease it, as the counterexample
shows. -/
theorem score_relax_mono (p : Project) (c c2 : Criteria)
    (hmin : c2.minValue = none ∨
      ∃ a b, c2.minValue = some a ∧ c.minValue = some b ∧ a ≤ b)
    (hcat : c2.categories = c.categories ∨ c2.categories = [])
    (hst : c2.statuses = c.statuses ∨ c2.statuses = [])
    (hsrc : c2.sources = c.sources ∨ c2.sources = []) :
    score p c ≤ score p c2 := by
  have hv : valueOk p c = true → valueOk p c2 = true := by
    intro h
    rcases hmin with h0 | ⟨a, b, ha, hb, hab⟩
    · simp [valueOk, h0]
    · cases hpv : p.value with
      | none => simp [valueOk, hb, hpv] at h
      | some v =>
        simp only [valueOk, hb, hpv, decide_eq_true_eq] at h
        simp only [valueOk, ha, hpv, decide_eq_true_eq]
        exact le_trans hab h
  have m1 := ite25_mono hv
  have m2 := ite25_mono (setOk_relax (x := p.category) hcat)
  have m3 := ite25_mono (setOk_relax (x := p.status) hst)
  have m4 := ite25_mono (setOk_relax (x := p.source) hsrc)
  unfold score
  omega

/-- A tight Criteria: high value floor plus one category. -/
def cTightEx : Criteria :=
  { minValue := some 1000000, categories := ["residential"],
    statuses := [], sources := [] }

/-- A relaxation of the tight Criteria: lower floor, category set cleared. -/
def cLooseEx : Criteria :=
  { minValue := some 500000, categories := [], statuses := [], sources := [] }

/-- Claim C3 witness: relaxing a concrete Criteria by lowering the floor and
clearing the category set does not decrease a concrete score. -/
theorem score_relax_mono_witness : score pEx cTightEx ≤ score pEx cLooseEx :=
  score_relax_mono pEx cTightEx cLooseEx
    (Or.inr ⟨500000, 1000000, rfl, rfl, by norm_num⟩)
    (Or.inr rfl) (Or.inl rfl) (Or.inl rfl)

/-- Claim C4: the score is an integer in [0, 100] for every Project and
Criteria, and scoring is a pure total function — evaluating it twice on the
same inputs gives the same output. -/
theorem score_bounds_deterministic (p : Project) (c : Criteria) :
    0 ≤ (score p c : Int) ∧ (score p c : Int) ≤ 100 ∧ score p c = score p c := by
  refine ⟨Int.ofNat_nonneg _, ?_, rfl⟩
  have h : score p c ≤ 100 := by
    have h1 := ite25_le (valueOk p c)
    have h2 := ite25_le (setOk p.category c.categories)
    have h3 := ite25_le (setOk p.status c.statuses)
    have h4 := ite25_le (setOk p.source c.sources)
    unfold score
    omega
  exact_mod_cast h

/-- Claim C5: every item returned by a successful query has score at least
the minMatch floor. -/
theorem query_minMatch_floor (ps : List Project) (c : Criteria) (f : Filters)
    (r : QueryResult) (h : query ps c f = Except.ok r) :
    ∀ x ∈ r.items, f.minMatch ≤ x.2 := by
  intro x hx
  unfold query at h
  split at h
  · simp only [Except.ok.injEq] at h
    subst h
    simp only at hx
    have hx1 : x ∈ sortList (sortLe f.sortBy)
        (applyView f (applyFloor f.minMatch (scoreAll c ps))) :=
      List.take_subset _ _ hx
    have hx2 : x ∈ applyView f (applyFloor f.minMatch (scoreAll c ps)) :=
      (mem_sortList _ _ _).mp hx1
    unfold applyView applyFloor at hx2
    have hx3 := (List.mem_filter.mp hx2).1
    have hx4 := (List.mem_filter.mp hx3).2
    exact of_decide_eq_true hx4
  · exact absurd h (by simp)

/-- Filters with a 60-point floor and the score sort key. -/
def f60Ex : Filters :=
  { search := none, category := none, source := none,
    minMatch := 60, sortBy := "score", limit := 100 }

/-- The concrete result of querying one project under the 60-point floor. -/
def rEx : QueryResult := { items := [(pEx, 100)], total := 1 }

/-- Claim C5 witness: a concrete query whose single returned item meets the
60-point floor. -/
theorem query_minMatch_floor_witness :
    query [pEx] cEmptyEx f60Ex = Except.ok rEx ∧ f60Ex.minMatch ≤ (pEx, (100 : Nat)).2 :=
  ⟨rfl,
   query_minMatch_floor [pEx] cEmptyEx f60Ex rEx rfl (pEx, (100 : Nat)) (by decide)⟩

/-- Claim C6: a successful query returns at most limit items, total is at
least the number of returned items, and total equals the count surviving the
floor and view filtering steps before truncation. -/
theorem query_limit_total (ps : List Project) (c : Criteria) (f : Filters)
    (r : QueryResult) (h : query ps c f = Except.ok r) :
    r.items.length ≤ f.limit ∧ r.items.length ≤ r.total ∧
    r.total = (applyView f (applyFloor f.minMatch (scoreAll c ps))).length := by
  unfold query at h
  split at h
  · simp only [Except.ok.injEq] at h
    subst h
    refine ⟨?_, ?_, rfl⟩
    · simp only [List.length_take, length_sortList]
      exact Nat.min_le_left _ _
    · simp only [List.length_take, length_sortList]
      exact Nat.min_le_right _ _
  · exact absurd h (by simp)

/-- Claim C6 witness: the concrete query returns one item, within the limit
of 100, with total 1 equal to the pre-truncation count. -/
theorem query_limit_total_witness :
    rEx.items.length ≤ f60Ex.limit ∧ rEx.items.length ≤ rEx.total ∧
    rEx.total = (applyView f60Ex (applyFloor f60Ex.minMatch (scoreAll cEmptyEx [pEx]))).length :=
  query_limit_total [pEx] cEmptyEx f60Ex rEx rfl

/-- Claim C7: a sortBy value outside the three recognized keys makes the
query fail with an InvalidFilter error naming the offending key; it never
falls back to a default sort. -/
theorem query_unknown_sort_errors (ps : List Project) (c : Criteria) (f : Filters)
    (h1 : f.sortBy ≠ "score") (h2 : f.sortBy ≠ "value")
    (h3 : f.sortBy ≠ "posted_date") :
    query ps c f = Except.error (QueryError.invalidFilter f.sortBy) := by
  have hb : recognizedSortKey f.sortBy = false := by
    simp only [recognizedSortKey, Bool.or_eq_false_iff, beq_eq_false_iff_ne, ne_eq]
    exact ⟨⟨h1, h2⟩, h3⟩
  unfold query
  rw [hb]
  simp

/-- Filters carrying an unknown sort key. -/
def fBadEx : Filters :=
  { search := none, category := none, source := none,
    minMatch := 0, sortBy := "relevance", limit := 100 }

/-- Claim C7 witness: a concrete query with sortBy set to an unrecognized
key fails with InvalidFilter. -/
theorem query_unknown_sort_errors_witness :
    query [pEx] cEmptyEx fBadEx = Except.error (QueryError.invalidFilter fBadEx.sortBy) :=
  query_unknown_sort_errors [pEx] cEmptyEx fBadEx (by decide) (by decide) (by decide)

/-- Claim C8: save is idempotent — on a store holding at most one entry for
the pair, saving twice returns the entry of the first save, leaves the store
of the first save unchanged, and the store then holds exactly one entry for
the pair.  The modelled save is a total function, so neither call throws. -/
theorem save_idempotent (st : SavedStore) (u pid t1 t2 : Nat)
    (hwf : st.entries.countP (pairMatch u pid) ≤ 1) :
    (save (save st u pid t1).2 u pid t2).1 = (save st u pid t1).1 ∧
    (save (save st u pid t1).2 u pid t2).2 = (save st u pid t1).2 ∧
    (save (save st u pid t1).2 u pid t2).2.entries.countP (pairMatch u pid) = 1 := by
  cases hf : st.entries.find? (pairMatch u pid) with
  | some e =>
    have hcount : st.entries.countP (pairMatch u pid) = 1 := by
      have hpos : 0 < st.entries.countP (pairMatch u pid) :=
        List.countP_pos_iff.mpr ⟨e, List.mem_of_find?_eq_some hf, List.find?_some hf⟩
      omega
    simp [save, hf, hcount]
  | none =>
    have hmatch : pairMatch u pid ⟨st.nextId, u, pid, t1⟩ = true := by
      simp [pairMatch]
    have hfind2 :
        (st.entries ++ [(⟨st.nextId, u, pid, t1⟩ : SavedEntry)]).find? (pairMatch u pid)
          = some ⟨st.nextId, u, pid, t1⟩ := by
      rw [List.find?_append, hf]
      simp [List.find?_cons, hmatch]
    have hzero : st.entries.countP (pairMatch u pid) = 0 :=
      List.countP_eq_zero.mpr (fun a ha => List.find?_eq_none.mp hf a ha)
    simp [save, hf, hfind2, List.countP_append, hzero, List.countP_cons, hmatch]

/-- The empty saved-set store. -/
def emptyStoreEx : SavedStore := { entries := [], nextId := 0 }

/-- Claim C8 witness: saving the pair (7, 42) twice on the empty store. -/
theorem save_idempotent_witness :
    (save (save emptyStoreEx 7 42 10).2 7 42 11).1 = (save emptyStoreEx 7 42 10).1 ∧
    (save (save emptyStoreEx 7 42 10).2 7 42 11).2 = (save emptyStoreEx 7 42 10).2 ∧
    (save (save emptyStoreEx 7 42 10).2 7 42 11).2.entries.countP (pairMatch 7 42) = 1 :=
  save_idempotent emptyStoreEx 7 42 10 11 (by decide)

/-- Claim C9: on criteria save the client normalizes a zero minimum-value
selection to null (JavaScript minValue-or-null), so a zero floor is sent
identically to no floor, while any nonzero floor is sent as itself and the
three arrays are sent unchanged. -/
theorem profileSaveBody_normalizes_zero (mv : Nat) (cs ss srcs : List String) :
    (profileSaveBody 0 cs ss srcs).criteria_min_value = none ∧
    (mv ≠ 0 → (profileSaveBody mv cs ss srcs).criteria_min_value = some mv) ∧
    (profileSaveBody mv cs ss srcs).criteria_categories = cs ∧
    (profileSaveBody mv cs ss srcs).criteria_statuses = ss ∧
    (profileSaveBody mv cs ss srcs).criteria_sources = srcs := by
  refine ⟨rfl, ?_, rfl, rfl, rfl⟩
  intro h
  simp [profileSaveBody, h]

/-- Claim C9 witness: the zero selection is sent as null and a concrete
nonzero selection is sent as itself. -/
theorem profileSaveBody_normalizes_zero_witness :
    (profileSaveBody 0 ["commercial"] ["Open"] ["scbo"]).criteria_min_value = none ∧
    (profileSaveBody 500000 ["commercial"] ["Open"] ["scbo"]).criteria_min_value = some 500000 :=
  ⟨(profileSaveBody_normalizes_zero 500000 ["commercial"] ["Open"] ["scbo"]).1,
   (profileSaveBody_normalizes_zero 500000 ["commercial"] ["Open"] ["scbo"]).2.1 (by decide)⟩

/-- Claim C10: the currency formatter renders the em dash for every falsy
input — null and the number 0 — so a known-zero value displays identically
to an unknown value; values of at least one million render in millions with
one decimal, values in [1000, 1000000) in thousands with zero decimals, and
the rest as a plain dollar amount. -/
theorem fmtDollar_spec :
    fmtDollar none = "—" ∧
    fmtDollar (some 0) = "—" ∧
    fmtDollar (some 0) = fmtDollar none ∧
    (∀ v : Nat, 1000000 ≤ v → fmtDollar (some v) = "$" ++ toFixed1M v ++ "M") ∧
    (∀ v : Nat, 1000 ≤ v → v < 1000000 → fmtDollar (some v) = "$" ++ toFixed0K v ++ "K") ∧
    (∀ v : Nat, 0 < v → v < 1000 → fmtDollar (some v) = "$" ++ toString v) := by
  refine ⟨rfl, rfl, rfl, ?_, ?_, ?_⟩
  · intro v hv
    have hv0 : ¬ v = 0 := by omega
    simp [fmtDollar, hv0, hv]
  · intro v h1 h2
    have hv0 : ¬ v = 0 := by omega
    have ha : ¬ 1000000 ≤ v := by omega
    simp [fmtDollar, hv0, ha, h1]
  · intro v h0 h1
    have hv0 : ¬ v = 0 := by omega
    have ha : ¬ 1000000 ≤ v := by omega
    have hb : ¬ 1000 ≤ v := by omega
    simp [fmtDollar, hv0, ha, hb]

/-- Claim C10 witness: the three value branches evaluated at concrete
inputs. -/
theorem fmtDollar_spec_witness :
    fmtDollar (some 2500000) = "$" ++ toFixed1M 2500000 ++ "M" ∧
    fmtDollar (some 50000) = "$" ++ toFixed0K 50000 ++ "K" ∧
    fmtDollar (some 500) = "$" ++ toString (500 : Nat) :=
  ⟨fmtDollar_spec.2.2.2.1 2500000 (by norm_num),
   fmtDollar_spec.2.2.2.2.1 50000 (by norm_num) (by norm_num),
   fmtDollar_spec.2.2.2.2.2 500 (by norm_num) (by norm_num)⟩

end SiteScan
